import Mathlib

/-!
Verification of the AI-Code-Reviewer web application.

The repository ships the client (`frontend/src/app/page.tsx`, a React
component) together with a README and a docker-compose file.  The client
component is embedded shallowly below: its `useState` cells become the
fields of `ClientState`, the `handleAnalyze` event handler becomes a pure
transition on that state driven by an explicit `FetchOutcome`, and the JSX
result/error markup becomes render functions into an abstract
`RenderedSection` type.

The backend (request handler, analysis gateway and persistence store,
`backend/main.py` in the project layout) is not part of the sources, so the
server-side operations `submit-for-analysis` and `list-history` are
modelled from the specification text, as marked on each definition.
-/

namespace AICodeReviewer

/-- The `result` JSON stored by the client after a successful analyze call.
`suggestions` and `bugs` are `Option` because the rendering code in
`page.tsx` guards each list with JavaScript truthiness
(`result.suggestions && result.suggestions.length > 0`), so an absent or
`undefined` field is representable and handled. -/
structure ResultData where
  explanation : String
  suggestions : Option (List String)
  bugs : Option (List String)
  deriving Repr, DecidableEq

/-- The five `useState` cells of the `HomePage` component in `page.tsx`:
`code`, `language`, `result`, `isLoading`, `error`. -/
structure ClientState where
  code : String
  language : String
  result : Option ResultData
  isLoading : Bool
  error : Option String
  deriving Repr, DecidableEq

/-- The initial state of `HomePage`: the `useState` initializers in
`page.tsx` (a sample JavaScript snippet, language `javascript`, no result,
not loading, no error). -/
def initialState : ClientState :=
  { code := "function greet(name) \x7b\n  return \"Hello, \" + name;\n\x7d"
  , language := "javascript"
  , result := none
  , isLoading := false
  , error := none }

/-- An HTTP request as issued by the client via `fetch`. -/
structure Request where
  method : String
  url : String
  contentType : String
  body : List (String × String)
  deriving Repr, DecidableEq

def analyzeUrl : String := "http://127.0.0.1:8000/api/analyze"

/-- The request built by `handleAnalyze` in `page.tsx`: a POST to the
analyze endpoint with JSON body `JSON.stringify(\x7b code, language \x7d)`
taken from the current state. -/
def analyzeRequest (s : ClientState) : Request :=
  { method := "POST"
  , url := analyzeUrl
  , contentType := "application/json"
  , body := [("code", s.code), ("language", s.language)] }

/-- The requests the `HomePage` component issues when it mounts.  The
component registers no effect hooks (`page.tsx` imports only `useState`
and contains no `useEffect`), so nothing is fetched on page load. -/
def mountRequests : List Request := []

/-- Every network request one invocation of `handleAnalyze` performs: the
single `fetch` of the analyze endpoint and nothing else (in particular no
follow-up history fetch). -/
def analyzeCycleRequests (s : ClientState) : List Request :=
  [analyzeRequest s]

/-- The outcome of the `fetch` inside `handleAnalyze`:
a response with `response.ok` true whose body parsed to `data`;
a response with `response.ok` false whose body's `detail` field is
`detail` (`none` for an absent field); or the fetch itself throwing
(network failure) with the thrown error's `message`. -/
inductive FetchOutcome where
  | success (data : ResultData)
  | httpError (detail : Option String)
  | networkError (message : String)
  deriving Repr, DecidableEq

/-- The fallback message of `page.tsx`:
`errorData.detail || "An error occurred while analyzing the code."`. -/
def defaultAnalyzeError : String := "An error occurred while analyzing the code."

/-- JavaScript `a || b` for a possibly-absent string `a`: an absent or
empty (falsy) string yields the fallback. -/
def jsOr (v : Option String) (fallback : String) : String :=
  match v with
  | some s => if s = "" then fallback else s
  | none => fallback

/-- The opening statements of `handleAnalyze`: `setResult(null)`,
`setError(null)`, `setIsLoading(true)`, run before the fetch. -/
def startSubmit (s : ClientState) : ClientState :=
  { s with result := none, error := none, isLoading := true }

/-- The remainder of `handleAnalyze` after the fetch resolves: on an ok
response the parsed body is stored via `setResult(data)`; on a non-ok
response `new Error(errorData.detail || ...)` is thrown and caught, so
`setError` receives the detail (or the fallback when detail is falsy); when
the fetch itself throws, `setError(err.message)` stores the raw message.
The `finally` block runs `setIsLoading(false)` in every case. -/
def finishSubmit (s : ClientState) (o : FetchOutcome) : ClientState :=
  match o with
  | .success data => { s with result := some data, isLoading := false }
  | .httpError detail =>
      { s with error := some (jsOr detail defaultAnalyzeError), isLoading := false }
  | .networkError message => { s with error := some message, isLoading := false }

/-- One full run of `handleAnalyze`: reset, fetch, then completion. -/
def handleAnalyze (s : ClientState) (o : FetchOutcome) : ClientState :=
  finishSubmit (startSubmit s) o

/-- A piece of the rendered results area of `page.tsx`. -/
inductive RenderedSection where
  | errorBanner (message : String)
  | explanationText (text : String)
  | itemList (title : String) (items : List String)
  | emptyMessage (title : String) (message : String)
  deriving Repr, DecidableEq

def noSuggestionsMsg : String := "No suggestions found. The code looks good!"

def noBugsMsg : String := "No potential bugs were detected."

/-- The Suggestions block of `page.tsx`:
`result.suggestions && result.suggestions.length > 0 ? <ul>...</ul> : <p>No suggestions found...</p>`.
An absent field is falsy, an empty array has length 0; both take the
message branch. -/
def renderSuggestions (d : ResultData) : RenderedSection :=
  match d.suggestions with
  | some l =>
      if l.length > 0 then .itemList "Suggestions" l
      else .emptyMessage "Suggestions" noSuggestionsMsg
  | none => .emptyMessage "Suggestions" noSuggestionsMsg

/-- The Potential Bugs block of `page.tsx`, same guard as the suggestions
block with its own empty-state message. -/
def renderBugs (d : ResultData) : RenderedSection :=
  match d.bugs with
  | some l =>
      if l.length > 0 then .itemList "Potential Bugs" l
      else .emptyMessage "Potential Bugs" noBugsMsg
  | none => .emptyMessage "Potential Bugs" noBugsMsg

/-- The whole result card of `page.tsx`: explanation, suggestions block,
bugs block. -/
def renderResult (d : ResultData) : List RenderedSection :=
  [.explanationText d.explanation, renderSuggestions d, renderBugs d]

def isErrorSection : RenderedSection → Bool
  | .errorBanner _ => true
  | _ => false

/-- `page.tsx` renders the error card under the guard `\x7berror && ...\x7d`:
shown only when `error` is a truthy (non-null, nonempty) string. -/
def rendersErrorPanel (s : ClientState) : Bool :=
  match s.error with
  | some m => !(m == "")
  | none => false

/-- `page.tsx` renders the result card under the guard `\x7bresult && ...\x7d`:
a non-null object is truthy. -/
def rendersResultPanel (s : ClientState) : Bool :=
  s.result.isSome

/-- The submit button carries `disabled=\x7bisLoading\x7d`. -/
def submitDisabled (s : ClientState) : Bool :=
  s.isLoading

/-- Modelled from the spec: the `AnalysisRecord` of §3 — the backend
sources (`backend/main.py`, `backend/models.py`) are not in the repository
snapshot.  `id` is assigned by the store on insert; `created_at` is the
insert-time timestamp, modelled as a natural number. -/
structure AnalysisRecord where
  id : Nat
  code : String
  language : String
  explanation : String
  suggestions : List String
  bugs : List String
  created_at : Nat
  deriving Repr, DecidableEq

/-- Modelled from the spec: the structured output of the Analysis Gateway
(§4.1): `\x7bexplanation, suggestions, bugs\x7d`. -/
structure AnalysisResult where
  explanation : String
  suggestions : List String
  bugs : List String
  deriving Repr, DecidableEq

/-- Modelled from the spec: the Gateway failure conditions of §4.1
(`GatewayUnavailable`, `GatewayRejected` with provider status/message,
`MalformedModelResponse`). -/
inductive GatewayFailure where
  | unavailable
  | rejected (status : Nat) (message : String)
  | malformedModelResponse
  deriving Repr, DecidableEq

/-- Modelled from the spec: one Gateway invocation either produces a
structured result or fails. -/
inductive GatewayResult where
  | ok (res : AnalysisResult)
  | failure (f : GatewayFailure)
  deriving Repr, DecidableEq

/-- Modelled from the spec: the human-readable `detail` message the request
handler derives from a Gateway failure (§4.2, §7); the provider message of
a rejection is surfaced verbatim inside it. -/
def failureDetail : GatewayFailure → String
  | .unavailable => "The analysis service is currently unavailable."
  | .rejected _ message => "The analysis service rejected the request: " ++ message
  | .malformedModelResponse => "The analysis service returned an unparseable response."

/-- Modelled from the spec: the Persistence Store (§2, §3) — one table of
`AnalysisRecord`s plus the store-managed monotonically increasing id
counter backing `id` assignment on insert. -/
structure Store where
  records : List AnalysisRecord
  nextId : Nat
  deriving Repr, DecidableEq

def emptyStore : Store :=
  { records := [], nextId := 1 }

/-- Store well-formedness: every persisted id was issued before the current
counter value. -/
def Wf (st : Store) : Prop :=
  ∀ r ∈ st.records, r.id < st.nextId

/-- Modelled from the spec: the response of `submit-for-analysis` (§4.2,
§6): `200` with the full record, or a non-`200` status with a `detail`
message. -/
inductive SubmitResponse where
  | ok (record : AnalysisRecord)
  | error (status : Nat) (detail : String)
  deriving Repr, DecidableEq

/-- The record built on a successful analysis: store-assigned `id`,
`code`/`language` from the request verbatim, the Gateway's three output
fields, insert-time `created_at`. -/
def mkRecord (n : Nat) (c l : String) (res : AnalysisResult) (now : Nat) : AnalysisRecord :=
  { id := n
  , code := c
  , language := l
  , explanation := res.explanation
  , suggestions := res.suggestions
  , bugs := res.bugs
  , created_at := now }

/-- Modelled from the spec: `submit-for-analysis` (§4.2).  Validation of
the two fields is vacuous here because the embedding types them as
strings.  On Gateway success a new record is inserted and returned in
full; on Gateway failure a 502-style error with the failure's `detail`
is returned and the store is left untouched. -/
def submitForAnalysis (st : Store) (c l : String) (gw : GatewayResult) (now : Nat) :
    SubmitResponse × Store :=
  match gw with
  | .ok res =>
      (.ok (mkRecord st.nextId c l res now),
       { records := st.records ++ [mkRecord st.nextId c l res now]
       , nextId := st.nextId + 1 })
  | .failure f => (.error 502 (failureDetail f), st)

/-- Most-recent-first order on records: `a` precedes `b` when `a` was
created no earlier than `b`. -/
def moreRecent (a b : AnalysisRecord) : Prop :=
  b.created_at ≤ a.created_at

instance : DecidableRel moreRecent :=
  fun a b => Nat.decLe b.created_at a.created_at

instance : IsTotal AnalysisRecord moreRecent :=
  ⟨fun a b => Nat.le_total b.created_at a.created_at⟩

instance : IsTrans AnalysisRecord moreRecent :=
  ⟨fun _ _ _ hab hbc => Nat.le_trans hbc hab⟩

/-- Modelled from the spec: `list-history` (§4.2) — all records of the
store, ordered by `created_at` descending (most recent first); the empty
store yields the empty sequence. -/
def listHistory (st : Store) : List AnalysisRecord :=
  List.insertionSort moreRecent st.records

/-- One successful submission: request fields, the Gateway's result and
the insert timestamp. -/
structure SubmitInput where
  code : String
  language : String
  res : AnalysisResult
  now : Nat
  deriving Repr, DecidableEq

/-- Run a sequence of successful submissions against a store. -/
def submitAll (st : Store) : List SubmitInput → Store
  | [] => st
  | x :: xs => submitAll (submitForAnalysis st x.code x.language (.ok x.res) x.now).2 xs

/-- The records a run of successful submissions creates, with ids issued
from `n` on. -/
def recordsOf (n : Nat) : List SubmitInput → List AnalysisRecord
  | [] => []
  | x :: xs => mkRecord n x.code x.language x.res x.now :: recordsOf (n + 1) xs

/-- A concrete store holding one already-issued record, used to evaluate
theorems with hypotheses at a concrete input. -/
def st₀ : Store :=
  { records := [{ id := 1, code := "a", language := "python", explanation := "e"
                , suggestions := [], bugs := [], created_at := 10 }]
  , nextId := 2 }

theorem submitAll_records (xs : List SubmitInput) :
    ∀ st : Store, (submitAll st xs).records = st.records ++ recordsOf st.nextId xs := by
  induction xs with
  | nil => intro st; simp [submitAll, recordsOf]
  | cons x xs ih =>
      intro st
      simp only [submitAll, submitForAnalysis, recordsOf]
      rw [ih]
      simp [List.append_assoc]

theorem recordsOf_length (xs : List SubmitInput) :
    ∀ n : Nat, (recordsOf n xs).length = xs.length := by
  induction xs with
  | nil => intro n; rfl
  | cons x xs ih => intro n; simp [recordsOf, ih]

theorem mem_recordsOf {r : AnalysisRecord} (xs : List SubmitInput) :
    ∀ n : Nat, r ∈ recordsOf n xs →
      ∃ x ∈ xs, ∃ m : Nat, r = mkRecord m x.code x.language x.res x.now := by
  induction xs with
  | nil => intro n h; cases h
  | cons x xs ih =>
      intro n h
      rcases List.mem_cons.1 h with h1 | h2
      · exact ⟨x, List.mem_cons_self x xs, n, h1⟩
      · rcases ih (n + 1) h2 with ⟨y, hy, m, hm⟩
        exact ⟨y, List.mem_cons_of_mem x hy, m, hm⟩

/-- Claim C1, counterexample: the component issues no request at all when
the page mounts (there is no on-load `list-history` fetch, hence also no
history rendering and no connectivity banner for it), and the only request
an analysis cycle issues is the POST to the analyze endpoint, never a
history refresh. -/
theorem no_history_request_on_load :
    mountRequests = [] ∧
    analyzeCycleRequests initialState = [analyzeRequest initialState] ∧
    (analyzeRequest initialState).url = "http://127.0.0.1:8000/api/analyze" ∧
    ((analyzeRequest initialState).url == "http://127.0.0.1:8000/api/history") = false :=
  ⟨rfl, rfl, rfl, by decide⟩

/-- Claim C1 as amended: on page load the client issues no request and
renders no history; the only request it ever issues is the analyze POST of
`handleAnalyze`, which performs no follow-up history fetch; the page
starts with no error banner and no result. -/
theorem client_requests_only_analyze (s : ClientState) :
    mountRequests = [] ∧
    analyzeCycleRequests s = [analyzeRequest s] ∧
    (analyzeRequest s).method = "POST" ∧
    (analyzeRequest s).url = analyzeUrl ∧
    initialState.error = none ∧
    initialState.result = none :=
  ⟨rfl, rfl, rfl, rfl, rfl, rfl⟩

/-- Claim C2: whenever the Gateway fails, `submit-for-analysis` returns an
error payload with a non-empty human-readable `detail`, the store is left
exactly as it was (no partial record persisted), and a subsequent
`list-history` returns the same record count as before. -/
theorem submit_gateway_failure_no_write (st : Store) (c l : String)
    (f : GatewayFailure) (now : Nat) :
    (submitForAnalysis st c l (.failure f) now).1 = .error 502 (failureDetail f) ∧
    0 < (failureDetail f).length ∧
    (submitForAnalysis st c l (.failure f) now).2 = st ∧
    (listHistory (submitForAnalysis st c l (.failure f) now).2).length
      = (listHistory st).length := by
  refine ⟨rfl, ?_, rfl, rfl⟩
  cases f with
  | unavailable => decide
  | rejected status message =>
      show 0 < ("The analysis service rejected the request: " ++ message).length
      rw [String.length_append]
      exact Nat.lt_of_lt_of_le (by decide) (Nat.le_add_right _ _)
  | malformedModelResponse => decide

/-- Claim C3: on Gateway success, `submit-for-analysis` returns a record
whose `code` and `language` equal the input verbatim and whose `id` is
strictly greater than every previously issued id (for a well-formed
store), so ids are never reused; the new store keeps every old record
unchanged followed by the new one, well-formedness is preserved, and no
submission (successful or failed) ever mutates or deletes an existing
record. -/
theorem submit_success_fresh_record (st : Store) (c l : String)
    (res : AnalysisResult) (now : Nat) (hwf : Wf st) :
    (submitForAnalysis st c l (.ok res) now).1 = .ok (mkRecord st.nextId c l res now) ∧
    (mkRecord st.nextId c l res now).code = c ∧
    (mkRecord st.nextId c l res now).language = l ∧
    (∀ r ∈ st.records, r.id < (mkRecord st.nextId c l res now).id) ∧
    (mkRecord st.nextId c l res now).id ∉ st.records.map AnalysisRecord.id ∧
    (submitForAnalysis st c l (.ok res) now).2.records
      = st.records ++ [mkRecord st.nextId c l res now] ∧
    Wf (submitForAnalysis st c l (.ok res) now).2 ∧
    (∀ gw : GatewayResult, ∀ r ∈ st.records,
      r ∈ (submitForAnalysis st c l gw now).2.records) := by
  refine ⟨rfl, rfl, rfl, ?_, ?_, rfl, ?_, ?_⟩
  · intro r hr
    exact hwf r hr
  · intro hmem
    rcases List.mem_map.1 hmem with ⟨r, hr, hid⟩
    exact absurd hid (Nat.ne_of_lt (hwf r hr))
  · intro r hr
    simp only [submitForAnalysis] at hr ⊢
    rcases List.mem_append.1 hr with h1 | h2
    · exact Nat.lt_succ_of_lt (hwf r h1)
    · have h3 := List.mem_singleton.1 h2
      subst h3
      exact Nat.lt_succ_self _
  · intro gw r hr
    cases gw with
    | ok res2 => exact List.mem_append_left _ hr
    | failure f => exact hr

/-- Witness for claim C3: the hypotheses hold and the conclusion applies
at the concrete store `st₀`. -/
theorem submit_success_fresh_record_witness :
    Wf st₀ ∧
    ((submitForAnalysis st₀ "x" "javascript" (.ok ⟨"ex", [], []⟩) 11).1
        = .ok (mkRecord st₀.nextId "x" "javascript" ⟨"ex", [], []⟩ 11) ∧
      (mkRecord st₀.nextId "x" "javascript" ⟨"ex", [], []⟩ 11).code = "x" ∧
      (mkRecord st₀.nextId "x" "javascript" ⟨"ex", [], []⟩ 11).language = "javascript" ∧
      (∀ r ∈ st₀.records,
        r.id < (mkRecord st₀.nextId "x" "javascript" ⟨"ex", [], []⟩ 11).id) ∧
      (mkRecord st₀.nextId "x" "javascript" ⟨"ex", [], []⟩ 11).id
        ∉ st₀.records.map AnalysisRecord.id ∧
      (submitForAnalysis st₀ "x" "javascript" (.ok ⟨"ex", [], []⟩) 11).2.records
        = st₀.records ++ [mkRecord st₀.nextId "x" "javascript" ⟨"ex", [], []⟩ 11] ∧
      Wf (submitForAnalysis st₀ "x" "javascript" (.ok ⟨"ex", [], []⟩) 11).2 ∧
      (∀ gw : GatewayResult, ∀ r ∈ st₀.records,
        r ∈ (submitForAnalysis st₀ "x" "javascript" gw 11).2.records)) := by
  have h : Wf st₀ := by
    intro r hr
    simp only [st₀, List.mem_singleton] at hr
    subst hr
    decide
  exact ⟨h, submit_success_fresh_record st₀ "x" "javascript" ⟨"ex", [], []⟩ 11 h⟩

/-- Claim C4: `list-history` on the empty store returns the empty sequence
(not an error); after N successful submissions it returns exactly N
records — a permutation of the records those submissions created — sorted
by `created_at` descending (most recent first), and every returned record
matches one prior submission field for field. -/
theorem listHistory_after_submissions (xs : List SubmitInput) :
    listHistory emptyStore = [] ∧
    List.Perm (listHistory (submitAll emptyStore xs)) (recordsOf 1 xs) ∧
    (listHistory (submitAll emptyStore xs)).length = xs.length ∧
    List.Sorted moreRecent (listHistory (submitAll emptyStore xs)) ∧
    ∀ r ∈ listHistory (submitAll emptyStore xs), ∃ x ∈ xs,
      r.code = x.code ∧ r.language = x.language ∧
      r.explanation = x.res.explanation ∧
      r.suggestions = x.res.suggestions ∧ r.bugs = x.res.bugs := by
  have hrec : (submitAll emptyStore xs).records = recordsOf 1 xs := by
    have h := submitAll_records xs emptyStore
    simpa [emptyStore] using h
  have hperm : List.Perm (listHistory (submitAll emptyStore xs)) (recordsOf 1 xs) := by
    rw [listHistory, hrec]
    exact List.perm_insertionSort moreRecent (recordsOf 1 xs)
  refine ⟨rfl, hperm, ?_, ?_, ?_⟩
  · rw [hperm.length_eq, recordsOf_length]
  · exact List.sorted_insertionSort moreRecent _
  · intro r hr
    have hr2 : r ∈ recordsOf 1 xs := hperm.mem_iff.1 hr
    rcases mem_recordsOf xs 1 hr2 with ⟨x, hx, m, hm⟩
    subst hm
    exact ⟨x, hx, rfl, rfl, rfl, rfl, rfl⟩

/-- Claim C5: a successful result with an empty suggestions or bugs
sequence renders the corresponding literal "none found" message (a
non-blank string), via the empty-state branch and not the error branch. -/
theorem empty_lists_render_none_found (e : String) (sb : Option (List String)) :
    renderSuggestions ⟨e, some [], sb⟩ = .emptyMessage "Suggestions" noSuggestionsMsg ∧
    renderBugs ⟨e, sb, some []⟩ = .emptyMessage "Potential Bugs" noBugsMsg ∧
    isErrorSection (renderSuggestions ⟨e, some [], sb⟩) = false ∧
    isErrorSection (renderBugs ⟨e, sb, some []⟩) = false ∧
    0 < noSuggestionsMsg.length ∧ 0 < noBugsMsg.length :=
  ⟨rfl, rfl, rfl, rfl, by decide, by decide⟩

/-- Claim C6: every analysis cycle follows
idle → submitting → (showingResult | showingError) → idle: the submit
first clears the prior result and error and sets the loading flag, the
loading flag disables the submit control, and the cycle ends with the
loading flag cleared whatever the outcome — success storing the result,
failure storing the error message. -/
theorem analysis_cycle_state_machine (s : ClientState) (o : FetchOutcome) :
    (startSubmit s).result = none ∧
    (startSubmit s).error = none ∧
    (startSubmit s).isLoading = true ∧
    submitDisabled (startSubmit s) = true ∧
    handleAnalyze s o = finishSubmit (startSubmit s) o ∧
    (handleAnalyze s o).isLoading = false ∧
    (∀ d, handleAnalyze s (.success d)
        = { startSubmit s with result := some d, isLoading := false }) ∧
    (∀ dt, (handleAnalyze s (.httpError dt)).error
        = some (jsOr dt defaultAnalyzeError)) ∧
    (∀ m, (handleAnalyze s (.networkError m)).error = some m) := by
  refine ⟨rfl, rfl, rfl, rfl, rfl, ?_, fun d => rfl, fun dt => rfl, fun m => rfl⟩
  cases o <;> rfl

/-- Claim C7, counterexample: when the fetch itself throws a raw
connectivity failure (message "Failed to fetch"), the client stores and
renders that raw message unchanged — no friendlier message is substituted
for the raw error text. -/
theorem raw_network_error_rendered :
    (handleAnalyze initialState (.networkError "Failed to fetch")).error
      = some "Failed to fetch" ∧
    rendersErrorPanel (handleAnalyze initialState (.networkError "Failed to fetch"))
      = true :=
  ⟨rfl, rfl⟩

/-- Claim C7 as amended: when `submit-for-analysis` fails, the client
renders the failure's error message — a non-ok response renders its
`detail` (with the default message substituted when `detail` is absent or
empty), and a thrown fetch error renders its raw message verbatim with no
substitution. -/
theorem submit_failure_rendering (s : ClientState) (dt : Option String) (m : String) :
    (handleAnalyze s (.httpError dt)).error = some (jsOr dt defaultAnalyzeError) ∧
    (handleAnalyze s (.networkError m)).error = some m ∧
    jsOr none defaultAnalyzeError = defaultAnalyzeError ∧
    jsOr (some "") defaultAnalyzeError = defaultAnalyzeError := by
  refine ⟨rfl, rfl, rfl, ?_⟩
  simp [jsOr]

/-- Claim C8: the client submits POST to the analyze endpoint with JSON
body exactly the `code` and `language` of its current state; an ok
response stores the full returned body as the result, and a non-ok
response with a non-empty `detail` field yields exactly that detail as the
error message. -/
theorem analyze_request_and_response (s : ClientState) (d : ResultData)
    (detail : String) (hd : detail ≠ "") :
    (analyzeRequest s).method = "POST" ∧
    (analyzeRequest s).url = "http://127.0.0.1:8000/api/analyze" ∧
    (analyzeRequest s).body = [("code", s.code), ("language", s.language)] ∧
    (handleAnalyze s (.success d)).result = some d ∧
    (handleAnalyze s (.httpError (some detail))).error = some detail := by
  refine ⟨rfl, rfl, rfl, rfl, ?_⟩
  simp [handleAnalyze, finishSubmit, startSubmit, jsOr, hd]

/-- Witness for claim C8: the hypothesis holds and the conclusion applies
at the initial client state with a concrete detail message. -/
theorem analyze_request_and_response_witness :
    ("Gateway unavailable" ≠ "") ∧
    ((analyzeRequest initialState).method = "POST" ∧
      (analyzeRequest initialState).url = "http://127.0.0.1:8000/api/analyze" ∧
      (analyzeRequest initialState).body
        = [("code", initialState.code), ("language", initialState.language)] ∧
      (handleAnalyze initialState (.success ⟨"ok", some [], some []⟩)).result
        = some ⟨"ok", some [], some []⟩ ∧
      (handleAnalyze initialState (.httpError (some "Gateway unavailable"))).error
        = some "Gateway unavailable") := by
  have h : ("Gateway unavailable" : String) ≠ "" := by decide
  exact ⟨h, analyze_request_and_response initialState ⟨"ok", some [], some []⟩
    "Gateway unavailable" h⟩

/-- Claim C9: after any completed analysis cycle at most one of the result
and error states is set — the submit clears both, success sets only the
result, failure sets only the error — so the result card and the error
card are never rendered together. -/
theorem result_error_mutually_exclusive (s : ClientState) (o : FetchOutcome) :
    ((handleAnalyze s o).result.isSome && (handleAnalyze s o).error.isSome) = false ∧
    (rendersResultPanel (handleAnalyze s o)
      && rendersErrorPanel (handleAnalyze s o)) = false ∧
    (startSubmit s).result = none ∧
    (startSubmit s).error = none ∧
    (∀ d, (handleAnalyze s (.success d)).error = none) ∧
    (∀ dt, (handleAnalyze s (.httpError dt)).result = none) ∧
    (∀ m, (handleAnalyze s (.networkError m)).result = none) := by
  refine ⟨?_, ?_, rfl, rfl, fun d => rfl, fun dt => rfl, fun m => rfl⟩
  · cases o <;> rfl
  · cases o <;> rfl

/-- Claim C10: rendering is total in the shape of the `suggestions` and
`bugs` fields — an absent field takes exactly the same empty-state branch
as an empty sequence, for each section and for the whole result card. -/
theorem absent_lists_render_safely (e : String) (s b : List String) :
    renderSuggestions ⟨e, none, some b⟩ = renderSuggestions ⟨e, some [], some b⟩ ∧
    renderSuggestions ⟨e, none, some b⟩ = .emptyMessage "Suggestions" noSuggestionsMsg ∧
    renderBugs ⟨e, some s, none⟩ = renderBugs ⟨e, some s, some []⟩ ∧
    renderBugs ⟨e, some s, none⟩ = .emptyMessage "Potential Bugs" noBugsMsg ∧
    renderResult ⟨e, none, none⟩
      = [.explanationText e,
         .emptyMessage "Suggestions" noSuggestionsMsg,
         .emptyMessage "Potential Bugs" noBugsMsg] :=
  ⟨rfl, rfl, rfl, rfl, rfl⟩

end AICodeReviewer
